import Mathlib

/-!
Shallow embedding of the arizona-desert-plants-chat repository.

The repository has two modules that matter here:
* `data-ingestion/ingestion.py` — class `ArizonaPlantVectorStore` with
  `load_dataset`, `create_collection`, `prepare_text_for_embedding`,
  `create_embeddings`, `upload_to_qdrant`, `build_index`, `search`;
* `assistant-app/` — `ArizonaPlantVectorStore.search`,
  `ArizonaPlantRAG.build_prompt` / `llm` / `rag`, and the FastAPI layer in
  `app.py` (`query_rag`, the pydantic `QueryRequest` validation).

External collaborators (SentenceTransformer, the qdrant client, the OpenAI
client, the json library) are modelled as oracle functions passed in, and the
calls the code issues to them are made visible as explicit call-event lists.
Python strings are modelled by `String` (a list of characters), Python floats
by `ℚ`, Python ints by `Int` where the sign matters and `Nat` where it cannot
be negative.
-/

/-! ## Common helpers: Python string and list primitives -/

/-- Python string slice `s[:n]`: the first `n` characters of `s`. -/
def pyTake (s : String) (n : Nat) : String := String.mk (s.data.take n)

/-- Python `str.strip()`: remove leading and trailing whitespace. -/
def pyStrip (s : String) : String :=
  String.mk (((s.data.dropWhile Char.isWhitespace).reverse.dropWhile
      Char.isWhitespace).reverse)

/-- The Python loop `for i in range(0, len(l), bs)` over slices `l[i:i+bs]`:
chunk `l` into consecutive batches of size `bs`.  A zero step is never passed
to this function by the embedded code (Python `range` raises on step 0). -/
def batched (bs : Nat) : List α → List (List α)
  | [] => []
  | x :: xs =>
    if _h : bs = 0 then []
    else (x :: xs).take bs :: batched bs ((x :: xs).drop bs)
termination_by l => l.length
decreasing_by
  simp only [List.length_drop, List.length_cons]
  omega

/-- Split a character list at every occurrence of `sep` (used to model
Python path components and file lines). -/
def splitOnChar (sep : Char) : List Char → List (List Char)
  | [] => [[]]
  | c :: rest =>
    if c = sep then [] :: splitOnChar sep rest
    else
      match splitOnChar sep rest with
      | [] => [[c]]
      | h :: t => (c :: h) :: t

/-- Model of a Python `metadata` dict (an open string-keyed mapping). -/
abbrev Metadata := List (String × String)

/-- Payload stored with a point in the qdrant collection.  A Python dict may
lack any of the keys, hence every field is an `Option`. -/
structure Payload where
  id : Option String
  type : Option String
  source : Option String
  title : Option String
  content : Option String
  metadata : Option Metadata
deriving DecidableEq

/-- One scored point as returned by the qdrant client from a vector query. -/
structure ScoredPoint where
  score : ℚ
  payload : Payload
deriving DecidableEq

/-- Decimal digits of `n`, most significant first, accumulator style. -/
def natDigitsAux : Nat → List Char → List Char
  | 0, acc => acc
  | n + 1, acc => natDigitsAux ((n + 1) / 10) (Nat.digitChar ((n + 1) % 10) :: acc)
decreasing_by
  exact Nat.div_lt_self (Nat.succ_pos n) (by omega)

/-- Decimal rendering of a natural number. -/
def natDigitsStr (n : Nat) : String :=
  if n = 0 then "0" else String.mk (natDigitsAux n [])

/-- Exactly three decimal digits of `m < 1000`, zero padded. -/
def threeDigitString (m : Nat) : String :=
  String.mk [Nat.digitChar (m / 100 % 10), Nat.digitChar (m / 10 % 10),
    Nat.digitChar (m % 10)]

/-- Model of the Python float format `f"{x:.3f}"`: round to the nearest
thousandth and print with exactly three digits after the decimal point. -/
def format3 (x : ℚ) : String :=
  let n : ℤ := round (x * 1000)
  (if n < 0 then "-" else "") ++ natDigitsStr (n.natAbs / 1000) ++ "." ++
    threeDigitString (n.natAbs % 1000)

/-- A string is formatted with exactly three decimal places: an optionally
signed integer part, one decimal point, then exactly three digits. -/
def threeDecimalFormatted (s : String) : Prop :=
  ∃ intPart frac : String, s = intPart ++ "." ++ frac ∧ frac.length = 3 ∧
    (∀ c ∈ frac.data, c.isDigit = true) ∧
    (∀ c ∈ intPart.data, c = '-' ∨ c.isDigit = true)

/-! ## `data-ingestion/ingestion.py` -/

namespace Ingestion

/-- A record of the dataset file (ingestion input), `{id, type, source,
title, content, metadata}`; a JSON object may lack any of the keys. -/
structure Document where
  id : Option String
  type : Option String
  source : Option String
  title : Option String
  content : Option String
  metadata : Option Metadata
deriving DecidableEq

/-- Python exceptions raised by `load_dataset` and the `json` module. -/
inductive PyErr where
  | fileNotFound (msg : String)
  | valueError (msg : String)
  | jsonDecodeError (msg : String)
deriving DecidableEq

/-- The Python `json` module, as an oracle: `load` decodes a whole file as a
JSON array of documents, `loads` decodes one line as a single document. -/
structure JsonModule where
  load : String → Except String (List Document)
  loads : String → Except String Document

/-- `pathlib.PurePath.name`: the final path component. -/
def pyName (path : String) : String :=
  String.mk ((splitOnChar '/' path.data).getLastD [])

/-- `pathlib.PurePath.suffix`: the extension of the final component, the
part from the last dot on, empty when the dot is first or last or absent. -/
def pySuffix (path : String) : String :=
  let l := (pyName path).data
  match l.reverse.findIdx? (fun c => c == '.') with
  | none => ""
  | some j =>
    let i := l.length - 1 - j
    if 0 < i ∧ i < l.length - 1 then String.mk (l.drop i) else ""

/-- Reassemble the pieces between newlines into Python file lines: every
line keeps its trailing newline and a final trailing newline does not
produce an extra empty line. -/
def rejoinLines : List (List Char) → List String
  | [] => []
  | [last] => if last = [] then [] else [String.mk last]
  | p :: q :: rest => String.mk (p ++ ['\n']) :: rejoinLines (q :: rest)

/-- Python text-file line iteration `for line in f`. -/
def pyFileLines (s : String) : List String :=
  rejoinLines (splitOnChar '\n' s.data)

/-- `ArizonaPlantVectorStore.load_dataset`: raise `FileNotFoundError` when
the path does not exist, decode `.json` files with `json.load`, decode
`.jsonl` files line by line with `json.loads`, and raise
`ValueError("Unsupported file format: ...")` for any other suffix.  The
filesystem is the oracle `fs` (path to contents).  The `.jsonl` loop
`for line in f: documents.append(json.loads(line))` is `loadLines`, a decode
error propagating out as `json.JSONDecodeError`. -/
def loadLines (js : JsonModule) : List String → Except PyErr (List Document)
  | [] => .ok []
  | line :: rest =>
    match js.loads line with
    | .error e => .error (.jsonDecodeError e)
    | .ok d =>
      match loadLines js rest with
      | .error e => .error e
      | .ok ds => .ok (d :: ds)

/-- `ArizonaPlantVectorStore.load_dataset` itself; see `loadLines`. -/
def load_dataset (js : JsonModule) (fs : String → Option String)
    (dataset_path : String) : Except PyErr (List Document) :=
  match fs dataset_path with
  | none => .error (.fileNotFound ("Dataset not found: " ++ dataset_path))
  | some contents =>
    if pySuffix dataset_path = ".json" then
      match js.load contents with
      | .ok documents => .ok documents
      | .error e => .error (.jsonDecodeError e)
    else if pySuffix dataset_path = ".jsonl" then
      loadLines js (pyFileLines contents)
    else
      .error (.valueError ("Unsupported file format: " ++ pySuffix dataset_path))

/-- `ArizonaPlantVectorStore.prepare_text_for_embedding`:
`title = document.get('title', '')`, `content = document.get('content', '')`,
`text = f"{title}\n\n{content}"`, then
`if len(text) > max_chars: text = text[:max_chars]` with `max_chars = 5000`. -/
def prepare_text_for_embedding (document : Document) : String :=
  let title := document.title.getD ""
  let content := document.content.getD ""
  let text := title ++ "\n\n" ++ content
  if text.length > 5000 then pyTake text 5000 else text

/-- The combined string `f"{title}\n\n{content}"` that
`prepare_text_for_embedding` truncates. -/
def combinedText (document : Document) : String :=
  document.title.getD "" ++ "\n\n" ++ document.content.getD ""

/-- One element of the `documents_with_embeddings` list built by
`create_embeddings`: `{'document': ..., 'embedding': ..., 'text': ...}`. -/
structure DocumentWithEmbedding where
  document : Document
  embedding : List ℚ
  text : String
deriving DecidableEq

/-- `ArizonaPlantVectorStore.create_embeddings`: prepare one text per
document, embed the texts through `self.embedding_model.encode` (the oracle
`encode`) in slices `texts[i:i+batch_size]` of the Python loop
`for i in range(0, len(texts), batch_size)`, then
`zip(documents, all_embeddings, texts)`.  A zero `batch_size` makes Python
`range` raise `ValueError` (modelled as `none`); a negative one makes the
range empty, so no embeddings are produced and `zip` truncates to `[]`. -/
def create_embeddings (encode : List String → List (List ℚ))
    (documents : List Document) (batch_size : Int) :
    Option (List DocumentWithEmbedding) :=
  let texts := documents.map prepare_text_for_embedding
  if batch_size = 0 then none
  else
    let all_embeddings :=
      if batch_size < 0 then []
      else ((batched batch_size.toNat texts).map encode).flatten
    some ((documents.zip (all_embeddings.zip texts)).map fun de =>
      { document := de.1, embedding := de.2.1, text := de.2.2 })

/-- A qdrant `PointStruct(id=..., vector=..., payload=...)`. -/
structure PointStruct where
  id : Nat
  vector : List ℚ
  payload : Payload
deriving DecidableEq

/-- The payload dict built by `upload_to_qdrant` for one document:
every field via `doc.get(...)`, with `metadata` defaulting to `{}`. -/
def uploadPayload (doc : Document) : Payload :=
  { id := doc.id, type := doc.type, source := doc.source, title := doc.title,
    content := doc.content, metadata := some (doc.metadata.getD []) }

/-- The `points` list built by `upload_to_qdrant`:
`for idx, item in enumerate(documents_with_embeddings)` makes a point with
`id=idx`, the item's embedding as vector, and the document payload. -/
def uploadPoints (documents_with_embeddings : List DocumentWithEmbedding) :
    List PointStruct :=
  documents_with_embeddings.enum.map fun ie =>
    { id := ie.1, vector := ie.2.embedding, payload := uploadPayload ie.2.document }

/-- One `client.upsert(collection_name=..., points=batch)` call. -/
inductive UpsertCall where
  | upsert (collection_name : String) (points : List PointStruct)
deriving DecidableEq

/-- `ArizonaPlantVectorStore.upload_to_qdrant`: build the points, then
upsert them in slices of the fixed `batch_size = 100`. -/
def upload_to_qdrant (collection_name : String)
    (documents_with_embeddings : List DocumentWithEmbedding) : List UpsertCall :=
  let points := uploadPoints documents_with_embeddings
  (batched 100 points).map (UpsertCall.upsert collection_name)

/-- The ingestion-module `ArizonaPlantVectorStore`: its collection name and
its two external collaborators, `self.embedding_model.encode` and
`self.client.search`, as oracles. -/
structure ArizonaPlantVectorStore where
  collection_name : String
  encode : String → List ℚ
  client_search : String → List ℚ → Int → List ScoredPoint

/-- Calls the ingestion-module `search` issues to its collaborators. -/
inductive SearchCall where
  | encode (text : String)
  | clientSearch (collection_name : String) (query_vector : List ℚ) (limit : Int)
deriving DecidableEq

/-- The dict built per result by the ingestion-module `search`; `content` is
`result.payload.get('content')[:500] + "..."`, the other fields are
`result.payload.get(...)` with no default. -/
structure SearchResultDict where
  score : ℚ
  id : Option String
  title : Option String
  type : Option String
  source : Option String
  content : String
  metadata : Option Metadata
deriving DecidableEq

/-- The result-formatting step of the ingestion-module `search` for one
point.  When the payload has no `content` key, `payload.get('content')` is
`None` and `None[:500]` raises `TypeError` (modelled as `none`). -/
def formatSearchResult (result : ScoredPoint) : Option SearchResultDict :=
  match result.payload.content with
  | none => none
  | some c =>
    some ({ score := result.score, id := result.payload.id,
            title := result.payload.title, type := result.payload.type,
            source := result.payload.source, content := pyTake c 500 ++ "...",
            metadata := result.payload.metadata })

/-- The result-formatting loop of the ingestion-module `search`:
`for result in results: formatted_results.append({...})`, in order, raising
(`none`) at the first payload without `content`. -/
def formatResults : List ScoredPoint → Option (List SearchResultDict)
  | [] => some []
  | r :: rest =>
    match formatSearchResult r with
    | none => none
    | some d =>
      match formatResults rest with
      | none => none
      | some ds => some (d :: ds)

/-- The ingestion-module `ArizonaPlantVectorStore.search`: embed the query,
call `self.client.search(collection_name, query_vector, limit)`, then format
each result in order (raising, i.e. `none`, if some payload lacks
`content`).  The first component records the collaborator calls made. -/
def ArizonaPlantVectorStore.search (self : ArizonaPlantVectorStore)
    (query : String) (limit : Int) :
    List SearchCall × Option (List SearchResultDict) :=
  let query_embedding := self.encode query
  let results := self.client_search self.collection_name query_embedding limit
  ([SearchCall.encode query,
    SearchCall.clientSearch self.collection_name query_embedding limit],
   formatResults results)

end Ingestion

/-! ## `assistant-app/ArizonaPlantVectorStore.py`, `ArizonaPlantRAG.py`, `app.py` -/

namespace AssistantApp

/-- The assistant-app `ArizonaPlantVectorStore`: collection name plus the
`self.embedding_model.encode` and `self.client.query_points` oracles. -/
structure ArizonaPlantVectorStore where
  collection_name : String
  encode : String → List ℚ
  query_points : String → List ℚ → Int → List ScoredPoint

/-- Calls the assistant-app `search` issues to its collaborators. -/
inductive ApiCall where
  | encode (text : String)
  | queryPoints (collection_name : String) (query : List ℚ) (limit : Int)
deriving DecidableEq

/-- The dict built per point by the assistant-app `search`: every payload
field is read with `payload.get(key, default)`. -/
structure ResultDict where
  id : String
  score : ℚ
  title : String
  content : String
  type : String
  source : String
  metadata : Metadata
deriving DecidableEq

/-- The result-formatting step of the assistant-app `search` for one point:
`payload.get('id', 'N/A')`, `payload.get('title', 'Untitled')`, and empty
defaults for the remaining fields. -/
def formatPoint (point : ScoredPoint) : ResultDict :=
  { id := point.payload.id.getD "N/A", score := point.score,
    title := point.payload.title.getD "Untitled",
    content := point.payload.content.getD "",
    type := point.payload.type.getD "",
    source := point.payload.source.getD "",
    metadata := point.payload.metadata.getD [] }

/-- The assistant-app `ArizonaPlantVectorStore.search`: embed the query,
call `self.client.query_points(collection_name, query=vector, limit=limit,
with_payload=True)`, and format each returned point in order.  The first
component records the collaborator calls made. -/
def ArizonaPlantVectorStore.search (self : ArizonaPlantVectorStore)
    (query : String) (limit : Int) : List ApiCall × List ResultDict :=
  let query_embedding := self.encode query
  let search_results := self.query_points self.collection_name query_embedding limit
  ([ApiCall.encode query,
    ApiCall.queryPoints self.collection_name query_embedding limit],
   search_results.map formatPoint)

/-- The fixed text of the `build_prompt` f-string before the interpolated
context (the triple-quoted literal keeps its 8-space indentation). -/
def promptHeader : String :=
  "You are an expert on Arizona desert plants. Answer the user\x27s question based on the provided context from authoritative sources.\n\n        Context from relevant documents:\n        "

/-- The fixed text of the `build_prompt` f-string between the context and
the interpolated query. -/
def promptMid : String := "\n\n        User Question: "

/-- The fixed text of the `build_prompt` f-string after the query: the five
instruction lines and the final `Answer:` label. -/
def promptTail : String :=
  "\n\n        Instructions:\n        - Provide a clear, detailed answer based on the context above\n        - If the context contains scientific names, include them\n        - If mentioning care instructions, be specific about Arizona conditions\n        - If the context doesn\x27t fully answer the question, say so\n        - Cite which document(s) you\x27re drawing from (e.g., \"According to Document 1...\")\n\n        Answer:"

/-- The five strings `build_prompt` appends to `context_parts` for the
result of 1-based rank `i`: the `Document {i} (Score: {score:.3f}):` label,
title, source, content, and the blank-line separator. -/
def documentBlock (i : Nat) (result : ResultDict) : List String :=
  ["Document " ++ toString i ++ " (Score: " ++ format3 result.score ++ "):",
   "Title: " ++ result.title,
   "Source: " ++ result.source,
   "Content: " ++ result.content,
   ""]

/-- The full `context_parts` list: the loop
`for i, result in enumerate(search_results, 1)` appends one block per
result, in order. -/
def contextParts (search_results : List ResultDict) : List String :=
  (search_results.enum.map fun ir => documentBlock (ir.1 + 1) ir.2).flatten

/-- `ArizonaPlantRAG.build_prompt`: join the context parts with newlines,
interpolate context and query into the fixed template, and `.strip()` it. -/
def build_prompt (query : String) (search_results : List ResultDict) : String :=
  let context := String.intercalate "\n" (contextParts search_results)
  pyStrip (promptHeader ++ context ++ promptMid ++ query ++ promptTail)

/-- `ArizonaPlantRAG`: its vector store and the OpenAI chat-completion
oracle (prompt content in, answer content out). -/
structure ArizonaPlantRAG where
  vector_store : ArizonaPlantVectorStore
  openai_chat : String → String

/-- `ArizonaPlantRAG.llm`: one chat-completion call with the prompt as the
single user message (model `gpt-4o-mini`, temperature 0.7, max 500 tokens —
configuration of the external service). -/
def ArizonaPlantRAG.llm (self : ArizonaPlantRAG) (prompt : String) : String :=
  self.openai_chat prompt

/-- The retrieval step inside `ArizonaPlantRAG.rag`:
`self.vector_store.search(query, limit=5)` with the hard-coded limit 5. -/
def promptDocuments (self : ArizonaPlantRAG) (query : String) : List ResultDict :=
  (self.vector_store.search query 5).2

/-- `ArizonaPlantRAG.rag`: retrieve with the fixed `limit=5`, build the
prompt from those results, and generate the answer. -/
def ArizonaPlantRAG.rag (self : ArizonaPlantRAG) (query : String) : String :=
  let search_results := (self.vector_store.search query 5).2
  let prompt := build_prompt query search_results
  self.llm prompt

/-- The pydantic `SearchResult` response model of `app.py`. -/
structure SearchResult where
  id : String
  title : String
  score : ℚ
  content : String
  type : String
  source : String
deriving DecidableEq

/-- The pydantic `QueryResponse` model of `app.py` (the wall-clock
`timestamp` field is omitted from the model). -/
structure QueryResponse where
  question : String
  answer : String
  retrieved_documents : List SearchResult
  model : String
deriving DecidableEq

/-- The per-document formatting of the `/query` and `/search` endpoints:
`content` is cut to 500 characters with `"..."` appended when longer. -/
def toSearchResult (doc : ResultDict) : SearchResult :=
  { id := doc.id, title := doc.title, score := doc.score,
    content :=
      if doc.content.length > 500 then pyTake doc.content 500 ++ "..."
      else doc.content,
    type := doc.type, source := doc.source }

/-- The `/query` endpoint `query_rag` of `app.py`: get the answer from
`rag.rag(request.question)` (which searches with its own fixed limit 5),
then separately call `vector_store.search(request.question,
limit=request.top_k)` and return those documents, formatted. -/
def query_rag (rag : ArizonaPlantRAG) (question : String) (top_k : Int) :
    QueryResponse :=
  let answer := rag.rag question
  let retrieved_docs := (rag.vector_store.search question top_k).2
  let search_results := retrieved_docs.map toSearchResult
  { question := question, answer := answer,
    retrieved_documents := search_results, model := "gpt-4o-mini" }

/-- The pydantic `QueryRequest` validation of `app.py`: `question` has
`min_length=3` and `top_k` has `ge=1, le=10`; requests outside these bounds
are rejected by the transport layer before any handler runs. -/
def queryRequestValid (question : String) (top_k : Int) : Bool :=
  decide (3 ≤ question.length) && decide (1 ≤ top_k) && decide (top_k ≤ 10)

end AssistantApp

/-! ## Concrete fixtures used to instantiate the theorems -/

/-- A 6000-character content string. -/
def demoLongContent : String := String.mk (List.replicate 6000 'x')

namespace AssistantApp

/-- Two indexed demo points with full payloads. -/
def demoPoints : List ScoredPoint :=
  [⟨1, ⟨some "p1", some "cactus", some "X", some "Saguaro",
     some "Carnegiea gigantea tolerates extreme heat", some []⟩⟩,
   ⟨0, ⟨some "p2", some "tree", some "Y", some "Palo Verde",
     some "Parkinsonia microphylla", some []⟩⟩]

/-- A demo assistant-app store whose index holds `demoPoints` and, like the
vector index, returns at most `limit` of them, best first. -/
def demoStore : ArizonaPlantVectorStore :=
  { collection_name := "arizona_plants", encode := fun _ => [1],
    query_points := fun _ _ limit => demoPoints.take limit.toNat }

/-- A demo RAG instance over `demoStore` with a constant LLM oracle. -/
def demoRag : ArizonaPlantRAG :=
  { vector_store := demoStore, openai_chat := fun _ => "ok" }

end AssistantApp

namespace Ingestion

/-- A demo ingestion-module store whose index returns a single point whose
stored payload content is `"abc"`. -/
def demoIngStore : ArizonaPlantVectorStore :=
  { collection_name := "arizona_plants", encode := fun _ => [1],
    client_search := fun _ _ _ =>
      [⟨1, ⟨some "p1", some "cactus", some "X", some "Saguaro", some "abc",
        some []⟩⟩] }

end Ingestion

/-! ## Helper lemmas -/

theorem string_mk_data (s : String) : String.mk s.data = s := by
  cases s; rfl

@[simp] theorem pyTake_data (s : String) (n : Nat) :
    (pyTake s n).data = s.data.take n := rfl

theorem string_length_data (s : String) : s.length = s.data.length := by
  cases s; rfl

@[simp] theorem pyTake_length (s : String) (n : Nat) :
    (pyTake s n).length = min n s.length := by
  rw [string_length_data, string_length_data]
  exact List.length_take n s.data

theorem batched_flatten (bs : Nat) (h : bs ≠ 0) :
    ∀ l : List α, (batched bs l).flatten = l
  | [] => by simp [batched]
  | x :: xs => by
    rw [batched, dif_neg h, List.flatten_cons,
      batched_flatten bs h ((x :: xs).drop bs)]
    exact List.take_append_drop bs (x :: xs)
termination_by l => l.length
decreasing_by
  simp only [List.length_drop, List.length_cons]
  omega

theorem batched_map (bs : Nat) (f : α → β) :
    ∀ l : List α, batched bs (l.map f) = (batched bs l).map (List.map f)
  | [] => by simp [batched]
  | x :: xs => by
    by_cases h : bs = 0
    · subst h; simp [batched]
    · rw [List.map_cons, batched, batched, dif_neg h, dif_neg h, List.map_cons,
        ← List.map_cons f x xs, ← List.map_take, ← List.map_drop,
        batched_map bs f ((x :: xs).drop bs)]
termination_by l => l.length
decreasing_by
  simp only [List.length_drop, List.length_cons]
  omega

theorem zip_self_map (l : List α) (h : α → β) :
    l.zip (l.map h) = l.map fun a => (a, h a) := by
  induction l with
  | nil => rfl
  | cons x xs ih => simp [ih]

theorem create_embeddings_eq (encode : List String → List (List ℚ))
    (e1 : String → List ℚ) (documents : List Ingestion.Document)
    (batch_size : Int) (hbs : 1 ≤ batch_size)
    (henc : ∀ ts : List String, encode ts = ts.map e1) :
    Ingestion.create_embeddings encode documents batch_size =
      some (documents.map fun d =>
        ⟨d, e1 (Ingestion.prepare_text_for_embedding d),
          Ingestion.prepare_text_for_embedding d⟩) := by
  have h0 : ¬ batch_size = 0 := by omega
  have hneg : ¬ batch_size < 0 := by omega
  simp only [Ingestion.create_embeddings, if_neg h0, if_neg hneg,
    Option.some.injEq]
  have hmap : (batched batch_size.toNat
        (documents.map Ingestion.prepare_text_for_embedding)).map encode =
      (batched batch_size.toNat
        (documents.map Ingestion.prepare_text_for_embedding)).map (List.map e1) :=
    List.map_congr_left fun c _ => henc c
  rw [hmap, ← batched_map,
    batched_flatten _ (show batch_size.toNat ≠ 0 by omega)]
  rw [List.map_map, List.zip_map', zip_self_map, List.map_map]
  rfl

theorem uploadPoints_getElem (items : List Ingestion.DocumentWithEmbedding)
    (i : Nat) :
    (Ingestion.uploadPoints items)[i]? = (items[i]?).map fun item =>
      ⟨i, item.embedding, Ingestion.uploadPayload item.document⟩ := by
  simp only [Ingestion.uploadPoints, List.getElem?_map, List.getElem?_enum,
    Option.map_map]
  cases items[i]? <;> rfl

theorem uploadPoints_length (items : List Ingestion.DocumentWithEmbedding) :
    (Ingestion.uploadPoints items).length = items.length := by
  simp [Ingestion.uploadPoints, List.enum_length]

theorem formatResults_isSome (l : List ScoredPoint) :
    (Ingestion.formatResults l).isSome = true ↔
      ∀ p ∈ l, (Ingestion.formatSearchResult p).isSome = true := by
  induction l with
  | nil => simp [Ingestion.formatResults]
  | cons r rest ih =>
    rw [Ingestion.formatResults]
    cases hr : Ingestion.formatSearchResult r with
    | none => simp [hr]
    | some d =>
      cases hrest : Ingestion.formatResults rest with
      | none => simp [hr, hrest, ← ih]
      | some ds => simp [hr, hrest, ← ih]

theorem formatResults_map (g : ScoredPoint → Ingestion.SearchResultDict)
    (l : List ScoredPoint)
    (h : ∀ p ∈ l, Ingestion.formatSearchResult p = some (g p)) :
    Ingestion.formatResults l = some (l.map g) := by
  induction l with
  | nil => simp [Ingestion.formatResults]
  | cons r rest ih =>
    rw [Ingestion.formatResults, h r (List.mem_cons_self r rest),
      ih fun p hp => h p (List.mem_cons_of_mem r hp)]
    rfl

theorem digitChar_isDigit {x : Nat} (h : x < 10) :
    (Nat.digitChar x).isDigit = true := by
  interval_cases x <;> decide

theorem threeDigitString_length (m : Nat) : (threeDigitString m).length = 3 := rfl

theorem threeDigitString_digits (m : Nat) :
    ∀ c ∈ (threeDigitString m).data, c.isDigit = true := by
  intro c hc
  simp only [threeDigitString, List.mem_cons, List.not_mem_nil, or_false] at hc
  rcases hc with h | h | h <;> subst h <;>
    exact digitChar_isDigit (Nat.mod_lt _ (by omega))

theorem natDigitsAux_digits : ∀ (n : Nat) (acc : List Char),
    (∀ c ∈ acc, c.isDigit = true) → ∀ c ∈ natDigitsAux n acc, c.isDigit = true
  | 0, acc, hacc => by simpa [natDigitsAux] using hacc
  | n + 1, acc, hacc => by
    rw [natDigitsAux]
    refine natDigitsAux_digits ((n + 1) / 10) _ ?_
    intro c hc
    rcases List.mem_cons.mp hc with h | h
    · subst h; exact digitChar_isDigit (Nat.mod_lt _ (by omega))
    · exact hacc c h
decreasing_by
  exact Nat.div_lt_self (Nat.succ_pos n) (by omega)

theorem natDigitsStr_digits (n : Nat) :
    ∀ c ∈ (natDigitsStr n).data, c.isDigit = true := by
  unfold natDigitsStr
  split
  · intro c hc
    have e : ("0" : String).data = ['0'] := rfl
    rw [e] at hc
    simp only [List.mem_singleton] at hc
    subst hc; decide
  · exact natDigitsAux_digits n [] (by simp)

theorem format3_threeDecimal (x : ℚ) : threeDecimalFormatted (format3 x) := by
  refine ⟨(if round (x * 1000) < 0 then "-" else "") ++
      natDigitsStr ((round (x * 1000)).natAbs / 1000),
    threeDigitString ((round (x * 1000)).natAbs % 1000), ?_,
    threeDigitString_length _, threeDigitString_digits _, ?_⟩
  · simp only [format3]
  · intro c hc
    rw [String.data_append] at hc
    rcases List.mem_append.mp hc with h | h
    · left
      split at h
      · have e : ("-" : String).data = ['-'] := rfl
        rw [e] at h
        simpa using h
      · have e : ("" : String).data = [] := rfl
        rw [e] at h
        cases h
    · right
      exact natDigitsStr_digits _ c h

theorem head_shape {l : List Char} {c : Char} (h : l.head? = some c) :
    ∃ t, l = c :: t := by
  cases l with
  | nil => cases h
  | cons a t =>
    refine ⟨t, ?_⟩
    simp only [List.head?_cons, Option.some.injEq] at h
    rw [h]

theorem pyStrip_eq_self {s : String}
    (h1 : ∃ c t, s.data = c :: t ∧ c.isWhitespace = false)
    (h2 : ∃ c t, s.data.reverse = c :: t ∧ c.isWhitespace = false) :
    pyStrip s = s := by
  obtain ⟨c, t, e1, w1⟩ := h1
  obtain ⟨c2, t2, e2, w2⟩ := h2
  unfold pyStrip
  have d1 : s.data.dropWhile Char.isWhitespace = s.data := by
    rw [e1, List.dropWhile_cons, w1]
    simp
  rw [d1]
  have d2 : s.data.reverse.dropWhile Char.isWhitespace = s.data.reverse := by
    rw [e2, List.dropWhile_cons, w2]
    simp
  rw [d2, List.reverse_reverse, string_mk_data]

theorem pyStrip_eq_self_of_ends (c c2 : Char) {s : String}
    (h1 : s.data.head? = some c) (hw1 : c.isWhitespace = false)
    (h2 : s.data.getLast? = some c2) (hw2 : c2.isWhitespace = false) :
    pyStrip s = s := by
  obtain ⟨t, ht⟩ := head_shape h1
  obtain ⟨t2, ht2⟩ :=
    head_shape (show s.data.reverse.head? = some c2 from by
      rw [List.head?_reverse]; exact h2)
  exact pyStrip_eq_self ⟨c, t, ht, hw1⟩ ⟨c2, t2, ht2, hw2⟩

namespace AssistantApp

theorem build_prompt_eq (query : String) (search_results : List ResultDict) :
    build_prompt query search_results =
      promptHeader ++ String.intercalate "\n" (contextParts search_results) ++
        promptMid ++ query ++ promptTail := by
  simp only [build_prompt]
  apply pyStrip_eq_self_of_ends 'Y' ':'
  · obtain ⟨t, ht⟩ :=
      head_shape (show promptHeader.data.head? = some 'Y' from by decide)
    simp [String.data_append, List.append_assoc, ht]
  · decide
  · have htl : promptTail.data.getLast? = some ':' := by decide
    simp [String.data_append, htl]
  · decide

theorem build_prompt_last_char (query : String) (search_results : List ResultDict) :
    (build_prompt query search_results).data.getLast? = some ':' := by
  rw [build_prompt_eq]
  have htl : promptTail.data.getLast? = some ':' := by decide
  simp [String.data_append, htl]

end AssistantApp

namespace Ingestion

theorem prepare_text_length (document : Document) :
    (prepare_text_for_embedding document).length =
      min (combinedText document).length 5000 := by
  simp only [prepare_text_for_embedding, combinedText]
  split
  · rw [pyTake_length]
    omega
  · omega

theorem prepare_text_isPrefix (document : Document) :
    (prepare_text_for_embedding document).data <+: (combinedText document).data := by
  simp only [prepare_text_for_embedding, combinedText]
  split
  · exact List.take_prefix _ _
  · exact List.prefix_refl _

theorem combinedText_length (document : Document) :
    (combinedText document).length =
      (document.title.getD "").length + 2 + (document.content.getD "").length := by
  unfold combinedText
  rw [String.length_append, String.length_append]
  rfl

end Ingestion

/-! ## Claim theorems -/

/-- C4: for every document, the text prepared for embedding is a prefix of
the concatenation of title, a blank line, then content; the whole combined
string is truncated to at most the 5000-character budget as a silent,
deterministic prefix cut (the function is total, so no error is ever
raised), and preparing a list of documents yields one text per document, so
no document is dropped. -/
theorem prepare_text_prefix_cut (document : Ingestion.Document) :
    (Ingestion.prepare_text_for_embedding document).data <+:
      (document.title.getD "" ++ "\n\n" ++ document.content.getD "").data ∧
    (Ingestion.prepare_text_for_embedding document).length =
      min (document.title.getD "" ++ "\n\n" ++ document.content.getD "").length
        5000 ∧
    (Ingestion.prepare_text_for_embedding document).length ≤ 5000 ∧
    ∀ documents : List Ingestion.Document,
      (documents.map Ingestion.prepare_text_for_embedding).length =
        documents.length := by
  have h1 := Ingestion.prepare_text_isPrefix document
  have h2 := Ingestion.prepare_text_length document
  refine ⟨h1, h2, ?_, fun documents => List.length_map documents _⟩
  rw [h2]
  omega

/-- C3 counterexample: a document with title `"T"` and a 6000-character
content prepares a text of exactly 5000 characters, not
`5000 + len(title) + 2 = 5003` as the claim states. -/
theorem prepare_text_length_not_title_plus :
    demoLongContent.length = 6000 ∧
    (Ingestion.prepare_text_for_embedding
      ⟨none, none, none, some "T", some demoLongContent, none⟩).length = 5000 ∧
    (5000 : Nat) ≠ 5000 + ("T" : String).length + 2 := by
  have hlen : demoLongContent.length = 6000 := by
    rw [string_length_data,
      show demoLongContent.data = List.replicate 6000 'x' from rfl,
      List.length_replicate]
  refine ⟨hlen, ?_, by decide⟩
  rw [Ingestion.prepare_text_length, Ingestion.combinedText_length]
  have h1 : ((Ingestion.Document.mk none none none (some "T")
      (some demoLongContent) none).title.getD "").length = 1 := by decide
  have h2 : ((Ingestion.Document.mk none none none (some "T")
      (some demoLongContent) none).content.getD "").length = 6000 := hlen
  omega

/-- C3 (amended): for every document whose content is present with length
6000 (exceeding the 5000-character budget), the text prepared for embedding
has exactly 5000 characters — the combined title, blank line and content
string is cut to the budget as a whole, so the title is not preserved in
addition to 5000 content characters. -/
theorem prepare_text_at_6000 (document : Ingestion.Document) (c : String)
    (hc : document.content = some c) (hlen : c.length = 6000) :
    (Ingestion.prepare_text_for_embedding document).length = 5000 := by
  rw [Ingestion.prepare_text_length, Ingestion.combinedText_length, hc]
  simp only [Option.getD_some]
  omega

/-- C3 witness: the amended theorem applied to the concrete document with
title `"T"` and the 6000-character `demoLongContent`. -/
theorem prepare_text_at_6000_witness :
    (Ingestion.Document.mk none none none (some "T") (some demoLongContent)
        none).content = some demoLongContent ∧
    demoLongContent.length = 6000 ∧
    (Ingestion.prepare_text_for_embedding
      ⟨none, none, none, some "T", some demoLongContent, none⟩).length = 5000 :=
  ⟨rfl,
    by
      rw [string_length_data,
        show demoLongContent.data = List.replicate 6000 'x' from rfl,
        List.length_replicate],
    prepare_text_at_6000 _ demoLongContent rfl
      (by
        rw [string_length_data,
          show demoLongContent.data = List.replicate 6000 'x' from rfl,
          List.length_replicate])⟩

/-- C1 counterexample: with two indexed documents, `query_rag` with
`top_k = 1` returns one document while the prompt behind the answer was
built from a search that returned two — the returned list is not the ranked
list used to build the generation prompt, nor does the prompt list have the
requested count. -/
theorem query_rag_documents_count_mismatch :
    ((AssistantApp.query_rag AssistantApp.demoRag "drought" 1).retrieved_documents).length
      = 1 ∧
    (AssistantApp.promptDocuments AssistantApp.demoRag "drought").length = 2 ∧
    (1 : Nat) ≠ 2 :=
  ⟨rfl, rfl, by decide⟩

/-- C1 (amended): the `/query` endpoint performs a second, independent
retrieval: the documents returned alongside the answer are the results of
`vector_store.search(question, limit=top_k)` formatted for the response
(content cut to 500 characters, metadata dropped), while the answer is
generated from a prompt built over `vector_store.search(question, limit=5)`
with its hard-coded limit; the two underlying ranked lists coincide exactly
when `top_k = 5`. -/
theorem query_rag_second_search (rag : AssistantApp.ArizonaPlantRAG)
    (question : String) (top_k : Int) :
    (AssistantApp.query_rag rag question top_k).retrieved_documents =
      ((rag.vector_store.search question top_k).2).map
        AssistantApp.toSearchResult ∧
    (AssistantApp.query_rag rag question top_k).answer =
      rag.openai_chat (AssistantApp.build_prompt question
        (AssistantApp.promptDocuments rag question)) ∧
    (AssistantApp.query_rag rag question 5).retrieved_documents =
      (AssistantApp.promptDocuments rag question).map
        AssistantApp.toSearchResult :=
  ⟨rfl, rfl, rfl⟩

/-- C2 counterexample: the prompt built for query `"what"` does not end
with the query — the fixed instruction text and the `Answer:` label follow
it, so the literal query string is not at the end of the prompt. -/
theorem build_prompt_query_not_at_end :
    ¬ ∃ s : String,
      AssistantApp.build_prompt "what"
          [⟨"p1", 1, "Saguaro", "hot", "cactus", "X", []⟩] =
        s ++ "what" := by
  rintro ⟨s, hs⟩
  have h1 := AssistantApp.build_prompt_last_char "what"
    [⟨"p1", 1, "Saguaro", "hot", "cactus", "X", []⟩]
  rw [hs, String.data_append, List.getLast?_append,
    show (("what" : String).data).getLast? = some 't' from by decide,
    Option.or_some] at h1
  have : ('t' : Char) = ':' := by injection h1
  exact absurd this (by decide)

/-- C2 (amended): for every query and non-empty results list, the built
prompt is exactly the fixed template containing one labeled document block
per result, in rank order, each block holding the 1-based rank, the score
formatted to exactly three decimal places, the title, the source, the
content and a blank-line separator, and containing the literal query string
verbatim after the context section — but followed by the fixed instruction
text and the final `Answer:` label rather than standing at the end. -/
theorem build_prompt_blocks (query : String)
    (results : List AssistantApp.ResultDict) (h : results ≠ []) :
    AssistantApp.build_prompt query results =
      AssistantApp.promptHeader ++ String.intercalate "\n"
        ((results.enum.map fun ir =>
          AssistantApp.documentBlock (ir.1 + 1) ir.2).flatten) ++
        AssistantApp.promptMid ++ query ++ AssistantApp.promptTail ∧
    (results.enum.map fun ir =>
      AssistantApp.documentBlock (ir.1 + 1) ir.2).length = results.length ∧
    ∀ r ∈ results, threeDecimalFormatted (format3 r.score) := by
  refine ⟨?_, by simp [List.enum_length], fun r _ => format3_threeDecimal r.score⟩
  rw [AssistantApp.build_prompt_eq]
  rfl

/-- C2 witness: the template equation of the amended theorem evaluated at a
concrete query and a one-result list. -/
theorem build_prompt_blocks_witness :
    AssistantApp.build_prompt "what"
        [⟨"p1", 1, "Saguaro", "hot", "cactus", "X", []⟩] =
      AssistantApp.promptHeader ++ String.intercalate "\n"
        ((([(⟨"p1", 1, "Saguaro", "hot", "cactus", "X", []⟩ :
            AssistantApp.ResultDict)]).enum.map fun ir =>
          AssistantApp.documentBlock (ir.1 + 1) ir.2).flatten) ++
        AssistantApp.promptMid ++ "what" ++ AssistantApp.promptTail :=
  (build_prompt_blocks "what" [⟨"p1", 1, "Saguaro", "hot", "cactus", "X", []⟩]
    (by decide)).1

/-- C5 counterexample: with `top_k = 0`, both search operations still issue
the vector-index query, with limit 0 forwarded unchanged — nothing is
rejected before reaching the index. -/
theorem search_issues_index_query_at_zero :
    AssistantApp.ApiCall.queryPoints "arizona_plants" [1] 0 ∈
      (AssistantApp.demoStore.search "q" 0).1 ∧
    Ingestion.SearchCall.clientSearch "arizona_plants" [1] 0 ∈
      (Ingestion.demoIngStore.search "q" 0).1 := by
  constructor
  · rw [show (AssistantApp.demoStore.search "q" 0).1 =
        [AssistantApp.ApiCall.encode "q",
         AssistantApp.ApiCall.queryPoints "arizona_plants" [1] 0] from rfl]
    exact List.mem_cons_of_mem _ (List.mem_cons_self _ _)
  · rw [show (Ingestion.demoIngStore.search "q" 0).1 =
        [Ingestion.SearchCall.encode "q",
         Ingestion.SearchCall.clientSearch "arizona_plants" [1] 0] from rfl]
    exact List.mem_cons_of_mem _ (List.mem_cons_self _ _)

/-- C5 (amended): the core search operations perform no `top_k` validation:
for every limit, including zero and negative values, each issues exactly one
vector-index query with the limit forwarded unchanged (no rejection and no
clamping in the core); out-of-range `top_k` is rejected only by the
transport layer's `QueryRequest` validation, which accepts exactly the
requests with `top_k ∈ [1, 10]` and a question of length at least 3. -/
theorem search_forwards_limit_unvalidated
    (st : AssistantApp.ArizonaPlantVectorStore)
    (sti : Ingestion.ArizonaPlantVectorStore) (query : String) (limit : Int) :
    (st.search query limit).1 =
      [AssistantApp.ApiCall.encode query,
       AssistantApp.ApiCall.queryPoints st.collection_name (st.encode query)
         limit] ∧
    (sti.search query limit).1 =
      [Ingestion.SearchCall.encode query,
       Ingestion.SearchCall.clientSearch sti.collection_name
         (sti.encode query) limit] ∧
    ∀ (question : String) (top_k : Int),
      AssistantApp.queryRequestValid question top_k = true ↔
        3 ≤ question.length ∧ 1 ≤ top_k ∧ top_k ≤ 10 := by
  refine ⟨rfl, rfl, fun question top_k => ?_⟩
  simp [AssistantApp.queryRequestValid, and_assoc]

/-- C6 counterexample: the ingestion-module search returns content
`"abc..."` for a stored payload whose content is `"abc"` — the returned
content field does not equal the stored payload field. -/
theorem ingestion_search_appends_ellipsis :
    ((Ingestion.demoIngStore.search "q" 1).2).map
        (fun rs => rs.map fun r => r.content) = some ["abc..."] ∧
    ("abc..." : String) ≠ "abc" := by
  exact ⟨rfl, by decide⟩

/-- C6 (amended): for every query and positive `top_k`, each search
operation embeds the query exactly once (a single `encode` call), issues
exactly one vector-index query with that embedding and `top_k`, and returns
one formatted result per matched point in rank order; the assistant-app
search carries all stored payload fields over unmodified (defaults `N/A`,
`Untitled`, and empty values filling in missing keys), while the
ingestion-module search keeps every field except content, which it replaces
by the first 500 stored characters with `"..."` appended. -/
theorem search_embeds_once_and_preserves_order
    (st : AssistantApp.ArizonaPlantVectorStore)
    (sti : Ingestion.ArizonaPlantVectorStore) (query : String) (limit : Int)
    (h : 0 < limit) :
    (st.search query limit).1 =
      [AssistantApp.ApiCall.encode query,
       AssistantApp.ApiCall.queryPoints st.collection_name (st.encode query)
         limit] ∧
    (st.search query limit).2 =
      (st.query_points st.collection_name (st.encode query) limit).map
        AssistantApp.formatPoint ∧
    (∀ (sc : ℚ) (i ty src t c : String) (m : Metadata),
      AssistantApp.formatPoint
          ⟨sc, ⟨some i, some ty, some src, some t, some c, some m⟩⟩ =
        ⟨i, sc, t, c, ty, src, m⟩) ∧
    (sti.search query limit).1 =
      [Ingestion.SearchCall.encode query,
       Ingestion.SearchCall.clientSearch sti.collection_name
         (sti.encode query) limit] ∧
    (∀ (p : ScoredPoint) (c : String), p.payload.content = some c →
      Ingestion.formatSearchResult p =
        some ⟨p.score, p.payload.id, p.payload.title, p.payload.type,
          p.payload.source, pyTake c 500 ++ "...", p.payload.metadata⟩) ∧
    ∀ g, (∀ p ∈ sti.client_search sti.collection_name (sti.encode query)
        limit, Ingestion.formatSearchResult p = some (g p)) →
      (sti.search query limit).2 =
        some ((sti.client_search sti.collection_name (sti.encode query)
          limit).map g) := by
  refine ⟨rfl, rfl, fun sc i ty src t c m => rfl, rfl, ?_, ?_⟩
  · intro p c hc
    simp [Ingestion.formatSearchResult, hc]
  · intro g hg
    exact formatResults_map g _ hg

/-- C6 witness: the amended theorem applied at `limit = 1` to the demo
stores; its second component evaluates the assistant-app search results. -/
theorem search_embeds_once_witness :
    (0 : Int) < 1 ∧
    (AssistantApp.demoStore.search "q" 1).2 =
      (AssistantApp.demoStore.query_points "arizona_plants" [1] 1).map
        AssistantApp.formatPoint :=
  ⟨by decide,
    (search_embeds_once_and_preserves_order AssistantApp.demoStore
      Ingestion.demoIngStore "q" 1 (by decide)).2.1⟩

/-- C7: `load_dataset` accepts exactly two encodings — a `.json` file
decoded as a single JSON array by `json.load` and a `.jsonl` file decoded
line by line by `json.loads` — fails with the rejected-format `ValueError`
for every other extension of an existing file, fails with the distinct
`FileNotFoundError` for a missing file, and returns normally only for an
existing file with one of the two extensions. -/
theorem load_dataset_error_taxonomy (js : Ingestion.JsonModule)
    (fs : String → Option String) (dataset_path : String) :
    (fs dataset_path = none →
      Ingestion.load_dataset js fs dataset_path =
        .error (.fileNotFound ("Dataset not found: " ++ dataset_path))) ∧
    (∀ contents, fs dataset_path = some contents →
      Ingestion.pySuffix dataset_path ≠ ".json" →
      Ingestion.pySuffix dataset_path ≠ ".jsonl" →
      Ingestion.load_dataset js fs dataset_path =
        .error (.valueError
          ("Unsupported file format: " ++ Ingestion.pySuffix dataset_path))) ∧
    (∀ contents documents, fs dataset_path = some contents →
      Ingestion.pySuffix dataset_path = ".json" →
      js.load contents = .ok documents →
      Ingestion.load_dataset js fs dataset_path = .ok documents) ∧
    (∀ contents documents, fs dataset_path = some contents →
      Ingestion.pySuffix dataset_path = ".jsonl" →
      Ingestion.loadLines js (Ingestion.pyFileLines contents) = .ok documents →
      Ingestion.load_dataset js fs dataset_path = .ok documents) ∧
    (∀ documents, Ingestion.load_dataset js fs dataset_path = .ok documents →
      (∃ contents, fs dataset_path = some contents) ∧
      (Ingestion.pySuffix dataset_path = ".json" ∨
        Ingestion.pySuffix dataset_path = ".jsonl")) ∧
    (∀ m m2 : String,
      Ingestion.PyErr.fileNotFound m ≠ Ingestion.PyErr.valueError m2 ∧
      Ingestion.PyErr.fileNotFound m ≠ Ingestion.PyErr.jsonDecodeError m2) := by
  refine ⟨?_, ?_, ?_, ?_, ?_, fun m m2 => ⟨by simp, by simp⟩⟩
  · intro hfs
    simp [Ingestion.load_dataset, hfs]
  · intro contents hfs hj hjl
    simp only [Ingestion.load_dataset, hfs, if_neg hj, if_neg hjl]
  · intro contents documents hfs hj hload
    simp only [Ingestion.load_dataset, hfs, if_pos hj, hload]
  · intro contents documents hfs hjl hlines
    have hj : Ingestion.pySuffix dataset_path ≠ ".json" := by
      rw [hjl]; decide
    simp only [Ingestion.load_dataset, hfs, if_neg hj, if_pos hjl, hlines]
  · intro documents hok
    unfold Ingestion.load_dataset at hok
    split at hok
    · cases hok
    · rename_i contents hfs
      refine ⟨⟨contents, hfs⟩, ?_⟩
      by_cases hj : Ingestion.pySuffix dataset_path = ".json"
      · exact Or.inl hj
      · by_cases hjl : Ingestion.pySuffix dataset_path = ".jsonl"
        · exact Or.inr hjl
        · rw [if_neg hj, if_neg hjl] at hok
          cases hok

/-- C7 witness: a missing file produces the not-found error. -/
theorem load_dataset_error_taxonomy_witness :
    Ingestion.load_dataset
        ⟨fun _ => .ok [], fun _ => .ok ⟨none, none, none, none, none, none⟩⟩
        (fun _ => none) "plants.json" =
      .error (.fileNotFound ("Dataset not found: " ++ "plants.json")) :=
  (load_dataset_error_taxonomy
    ⟨fun _ => .ok [], fun _ => .ok ⟨none, none, none, none, none, none⟩⟩
    (fun _ => none) "plants.json").1 rfl

/-- C8: for every ingested document list (embedded with a provider that
returns one vector per text), the `idx`-th point built by
`upload_to_qdrant` carries `point_id = idx`, the `idx`-th document's
payload, and the embedding of the `idx`-th prepared text — document order
is preserved when pairing vectors to documents — and the upsert batches of
100 concatenate back to exactly that point list. -/
theorem upload_point_ids_positional (collection_name : String)
    (encode : List String → List (List ℚ)) (e1 : String → List ℚ)
    (documents : List Ingestion.Document) (batch_size : Int)
    (hbs : 1 ≤ batch_size)
    (henc : ∀ ts : List String, encode ts = ts.map e1) :
    ∀ items,
      Ingestion.create_embeddings encode documents batch_size = some items →
      (Ingestion.uploadPoints items).length = documents.length ∧
      (∀ i : Nat, (Ingestion.uploadPoints items)[i]? =
        (documents[i]?).map fun d =>
          ⟨i, e1 (Ingestion.prepare_text_for_embedding d),
            Ingestion.uploadPayload d⟩) ∧
      (batched 100 (Ingestion.uploadPoints items)).flatten =
        Ingestion.uploadPoints items ∧
      Ingestion.upload_to_qdrant collection_name items =
        (batched 100 (Ingestion.uploadPoints items)).map
          (Ingestion.UpsertCall.upsert collection_name) := by
  intro items hitems
  rw [create_embeddings_eq encode e1 documents batch_size hbs henc] at hitems
  injection hitems with hitems
  subst hitems
  refine ⟨?_, ?_, batched_flatten 100 (by omega) _, rfl⟩
  · rw [uploadPoints_length, List.length_map]
  · intro i
    rw [uploadPoints_getElem, List.getElem?_map, Option.map_map]
    cases documents[i]? <;> rfl

/-- C8 witness: one concrete document run, via the theorem. -/
theorem upload_point_ids_positional_witness :
    (Ingestion.uploadPoints
      [⟨⟨some "p1", none, none, some "T", some "c", none⟩, [1], "T\n\nc"⟩]).length
      = 1 :=
  (upload_point_ids_positional "arizona_plants" (fun ts => ts.map fun _ => [1])
    (fun _ => [1]) [⟨some "p1", none, none, some "T", some "c", none⟩] 1
    (by decide) (fun _ => rfl)
    [⟨⟨some "p1", none, none, some "T", some "c", none⟩, [1], "T\n\nc"⟩]
    (create_embeddings_eq (fun ts => ts.map fun _ => [1]) (fun _ => [1])
      [⟨some "p1", none, none, some "T", some "c", none⟩] 1 (by decide)
      (fun _ => rfl))).1

/-- C9: for every document list and `batch_size ≥ 1` (with an embedding
provider returning one vector per text), `create_embeddings` pairs each
document, in input order, with the embedding of its prepared text; the
result is independent of the chosen batch size, and the output length
always equals the input length. -/
theorem create_embeddings_batch_invariant (encode : List String → List (List ℚ))
    (e1 : String → List ℚ) (documents : List Ingestion.Document)
    (batch_size : Int) (hbs : 1 ≤ batch_size)
    (henc : ∀ ts : List String, encode ts = ts.map e1) :
    Ingestion.create_embeddings encode documents batch_size =
      some (documents.map fun d =>
        ⟨d, e1 (Ingestion.prepare_text_for_embedding d),
          Ingestion.prepare_text_for_embedding d⟩) ∧
    (∀ batch_size2 : Int, 1 ≤ batch_size2 →
      Ingestion.create_embeddings encode documents batch_size2 =
        Ingestion.create_embeddings encode documents batch_size) ∧
    ∀ out, Ingestion.create_embeddings encode documents batch_size = some out →
      out.length = documents.length := by
  have h := create_embeddings_eq encode e1 documents batch_size hbs henc
  refine ⟨h, fun bs2 h2 => ?_, fun out hout => ?_⟩
  · rw [create_embeddings_eq encode e1 documents bs2 h2 henc, h]
  · rw [h] at hout
    injection hout with e
    rw [← e, List.length_map]

/-- C9 witness: two documents embedded with `batch_size = 2`. -/
theorem create_embeddings_batch_invariant_witness :
    Ingestion.create_embeddings (fun ts => ts.map fun _ => [1])
      [⟨some "p1", none, none, some "T", some "c", none⟩,
       ⟨some "p2", none, none, some "U", some "d", none⟩] 2 =
      some [⟨⟨some "p1", none, none, some "T", some "c", none⟩, [1], "T\n\nc"⟩,
        ⟨⟨some "p2", none, none, some "U", some "d", none⟩, [1], "U\n\nd"⟩] :=
  (create_embeddings_batch_invariant (fun ts => ts.map fun _ => [1])
    (fun _ => [1])
    [⟨some "p1", none, none, some "T", some "c", none⟩,
     ⟨some "p2", none, none, some "U", some "d", none⟩] 2 (by decide)
    (fun _ => rfl)).1

/-- C10: the ingestion-module search returns normally exactly when every
matched point's payload contains a `content` value; whenever some matched
point's payload lacks `content`, the result-formatting step raises (the
search yields no result list) instead of returning results. -/
theorem ingestion_search_requires_content
    (sti : Ingestion.ArizonaPlantVectorStore) (query : String) (limit : Int) :
    (((sti.search query limit).2).isSome = true ↔
      ∀ p ∈ sti.client_search sti.collection_name (sti.encode query) limit,
        (p.payload.content).isSome = true) ∧
    ∀ p ∈ sti.client_search sti.collection_name (sti.encode query) limit,
      p.payload.content = none → (sti.search query limit).2 = none := by
  have hiff : ((sti.search query limit).2).isSome = true ↔
      ∀ p ∈ sti.client_search sti.collection_name (sti.encode query) limit,
        (p.payload.content).isSome = true := by
    refine Iff.trans (formatResults_isSome _) ?_
    constructor
    · intro hall p hp
      have := hall p hp
      cases hc : p.payload.content with
      | none => rw [Ingestion.formatSearchResult, hc] at this; cases this
      | some c => rfl
    · intro hall p hp
      have := hall p hp
      cases hc : p.payload.content with
      | none => rw [hc] at this; cases this
      | some c => rw [Ingestion.formatSearchResult, hc]; rfl
  refine ⟨hiff, fun p hp hc => ?_⟩
  cases hres : (sti.search query limit).2 with
  | none => rfl
  | some rs =>
    exfalso
    have hs : ((sti.search query limit).2).isSome = true := by rw [hres]; rfl
    have := (hiff.mp hs) p hp
    rw [hc] at this
    cases this

/-- C1 witness: the amended theorem's transparency component at `top_k = 5`
on the demo RAG instance. -/
theorem query_rag_second_search_witness :
    (AssistantApp.query_rag AssistantApp.demoRag "drought" 5).retrieved_documents =
      (AssistantApp.promptDocuments AssistantApp.demoRag "drought").map
        AssistantApp.toSearchResult :=
  (query_rag_second_search AssistantApp.demoRag "drought" 5).2.2

/-- C4 witness: the budget bound evaluated on a concrete document. -/
theorem prepare_text_prefix_cut_witness :
    (Ingestion.prepare_text_for_embedding
      ⟨none, none, none, some "T", some "c", none⟩).length ≤ 5000 :=
  (prepare_text_prefix_cut ⟨none, none, none, some "T", some "c", none⟩).2.2.1

/-- C5 witness: the forwarded-limit equation at `limit = 0` on the demo
store. -/
theorem search_forwards_limit_unvalidated_witness :
    (AssistantApp.demoStore.search "q" 0).1 =
      [AssistantApp.ApiCall.encode "q",
       AssistantApp.ApiCall.queryPoints "arizona_plants" [1] 0] :=
  (search_forwards_limit_unvalidated AssistantApp.demoStore
    Ingestion.demoIngStore "q" 0).1

/-- C10 witness: the demo store's only matched point carries content, so
its search returns normally. -/
theorem ingestion_search_requires_content_witness :
    ((Ingestion.demoIngStore.search "q" 1).2).isSome = true :=
  (ingestion_search_requires_content Ingestion.demoIngStore "q" 1).1.mpr
    (fun p hp => by
      have hp2 : p ∈ [(⟨1, ⟨some "p1", some "cactus", some "X", some "Saguaro",
          some "abc", some []⟩⟩ : ScoredPoint)] := hp
      rw [List.mem_singleton.mp hp2]
      rfl)
